import Mathlib

/-!
Verification development for the MEAP messaging core (crate `rig-core` of
`meapdotfun/meap`).  The Rust sources are shallowly embedded: machine
integers (`u16`, `u32`, `u64`) become `Nat` (no claim under scrutiny
depends on overflow), `Instant`/`SystemTime` become abstract `Nat` time
stamps, `Duration` becomes a `Nat` number of time units, byte strings
become `List Nat`, and fallible operations return `Except Error α`.
Asynchronous state (mpsc channels, `RwLock`-protected maps) is embedded as
explicit state passing; the outcome of an environment interaction such as
"the receiving end of a channel was dropped" is a boolean input of the
operation that depends on it.
-/

namespace Meap

/-!
## Error taxonomy
Embeds `src/rig-core/src/error.rs`.  Each variant wraps a human-readable
reason string.  The `RateLimit` variant is constructed by
`src/rig-core/src/connection/rate_limit.rs` (it is referenced there even
though the `Error` enum declaration omits it), and the specification's
taxonomy lists it, so it is included here.  `Io` and `Other` wrap foreign
error values; only their display text is kept.
-/

inductive Error where
  | Protocol (msg : String)
  | Connection (msg : String)
  | Send (msg : String)
  | Io (msg : String)
  | Security (msg : String)
  | Validation (msg : String)
  | Serialization (msg : String)
  | Stream (msg : String)
  | Database (msg : String)
  | Agent (msg : String)
  | RateLimit (msg : String)
  | Other (msg : String)
deriving DecidableEq, Repr

/-- Error kinds without the reason payload; the spec requires callers to
discriminate on the kind, never on the reason text. -/
inductive ErrKind where
  | Protocol
  | Connection
  | Send
  | Io
  | Security
  | Validation
  | Serialization
  | Stream
  | Database
  | Agent
  | RateLimit
  | Other
deriving DecidableEq, Repr

/-- Kind of an error value. -/
def Error.kind : Error → ErrKind
  | .Protocol _ => .Protocol
  | .Connection _ => .Connection
  | .Send _ => .Send
  | .Io _ => .Io
  | .Security _ => .Security
  | .Validation _ => .Validation
  | .Serialization _ => .Serialization
  | .Stream _ => .Stream
  | .Database _ => .Database
  | .Agent _ => .Agent
  | .RateLimit _ => .RateLimit
  | .Other _ => .Other

/-!
## Circuit breaker
Embeds `src/rig-core/src/connection/circuit.rs`.  `Instant` time stamps
are `Nat`; `record_failure` takes the value of `Instant::now()` as an
argument.  Note that the source's `allow_request` consults only the state
and takes no clock input: the embedding is faithful to that.
-/

inductive CircuitState where
  | Closed
  | Open
  | HalfOpen
deriving DecidableEq, Repr

structure CircuitBreaker where
  state : CircuitState
  failure_count : Nat
  threshold : Nat
  last_failure : Option Nat
deriving DecidableEq, Repr

def CircuitBreaker.new (threshold : Nat) : CircuitBreaker :=
  { state := .Closed, failure_count := 0, threshold := threshold, last_failure := none }

/-- `record_failure`: increment the consecutive failure count, stamp the
failure time, and open the circuit once the count reaches the threshold. -/
def CircuitBreaker.record_failure (b : CircuitBreaker) (now : Nat) : CircuitBreaker :=
  let b' : CircuitBreaker :=
    { b with failure_count := b.failure_count + 1, last_failure := some now }
  if b'.threshold ≤ b'.failure_count then { b' with state := .Open } else b'

/-- `record_success`: reset the failure count, clear the failure stamp,
and close the circuit. -/
def CircuitBreaker.record_success (b : CircuitBreaker) : CircuitBreaker :=
  { b with failure_count := 0, last_failure := none, state := .Closed }

/-- `allow_request`: `matches!(self.state, CircuitState::Closed)`. -/
def CircuitBreaker.allow_request (b : CircuitBreaker) : Bool :=
  match b.state with
  | .Closed => true
  | _ => false

/-!
## Stream sender
Embeds `StreamSender` of `src/rig-core/src/protocol/stream.rs`.  The
bounded mpsc channel is embedded as the list of chunks that were
successfully enqueued; whether `tx.send` fails (the receiving end was
dropped) is a boolean input per call.  `tokio::sync::mpsc::error::SendError`
displays as `channel closed`.
-/

structure StreamChunk where
  stream_id : String
  chunk_id : Nat
  data : List Nat
  is_last : Bool
deriving DecidableEq, Repr

structure StreamSender where
  stream_id : String
  chunk_id : Nat
  channel : List StreamChunk
deriving DecidableEq, Repr

/-- `StreamSender::new` (the fresh UUID stream id is an argument here). -/
def StreamSender.new (stream_id : String) : StreamSender :=
  { stream_id := stream_id, chunk_id := 0, channel := [] }

/-- `send_chunk`: build the chunk carrying the current sequence number,
increment the sequence number, then enqueue; the increment happens before
the enqueue, hence also when the enqueue fails. -/
def StreamSender.send_chunk (s : StreamSender) (data : List Nat) (is_last : Bool)
    (enqueue_ok : Bool) : Except Error Unit × StreamSender :=
  let chunk : StreamChunk :=
    { stream_id := s.stream_id, chunk_id := s.chunk_id, data := data, is_last := is_last }
  let s' : StreamSender := { s with chunk_id := s.chunk_id + 1 }
  if enqueue_ok then
    (Except.ok (), { s' with channel := s'.channel ++ [chunk] })
  else
    (Except.error (Error.Stream "Failed to send chunk: channel closed"), s')

/-!
## Theorems: circuit breaker claims
-/

/-- C9: in any state, a single `record_success` resets the consecutive
failure count to zero, clears the last-failure time stamp, and sets the
state to `Closed`, so `allow_request` returns `true` immediately
afterwards — one success fully closes even an `Open` breaker with no
timeout wait and no probe phase. -/
theorem claim_C9_record_success_closes (b : CircuitBreaker) :
    b.record_success.state = CircuitState.Closed ∧
    b.record_success.failure_count = 0 ∧
    b.record_success.last_failure = none ∧
    b.record_success.allow_request = true :=
  ⟨rfl, rfl, rfl, rfl⟩

/-- C2: the first half of the claim holds at the threshold-3 breaker the
connection layer builds — after exactly 3 consecutive `record_failure`
calls, `allow_request` returns `false` and the state is `Open` — but the
second half fails: `allow_request` is `true` exactly on `Closed`, no
operation ever produces the `HalfOpen` state (so it is unreachable from
`new`, although the source declares it), and `allow_request` takes no
clock input at all, so no elapsed reset timeout ever admits a probe; only
`record_success` restores admission. -/
theorem claim_C2_no_halfopen_probe :
    ((((CircuitBreaker.new 3).record_failure 0).record_failure 1).record_failure 2).allow_request
      = false
    ∧ ((((CircuitBreaker.new 3).record_failure 0).record_failure 1).record_failure 2).state
      = CircuitState.Open
    ∧ (∀ b : CircuitBreaker, b.allow_request = true ↔ b.state = CircuitState.Closed)
    ∧ (∀ (b : CircuitBreaker) (t : Nat),
        (b.record_failure t).state = CircuitState.Open ∨ (b.record_failure t).state = b.state)
    ∧ (∀ b : CircuitBreaker, b.record_success.state = CircuitState.Closed) := by
  refine ⟨by decide, by decide, ?_, ?_, fun b => rfl⟩
  · intro b
    obtain ⟨st, fc, th, lf⟩ := b
    cases st <;> simp [CircuitBreaker.allow_request]
  · intro b t
    by_cases h : b.threshold ≤ b.failure_count + 1
    · left
      simp [CircuitBreaker.record_failure, h]
    · right
      simp [CircuitBreaker.record_failure, h]

/-!
## Theorems: stream sender claim
-/

/-- C10: `send_chunk` increments the internal chunk sequence counter even
when enqueueing fails with a `Stream` error, so the next successful chunk
carries a sequence id one greater than the failed chunk's id (which was
`s.chunk_id`), and — provided all previously enqueued chunks carried ids
below the current counter — no chunk with the failed id ever appears in
the channel: the emitted id sequence has a permanent gap. -/
theorem claim_C10_chunk_id_gap (s : StreamSender) (d1 d2 : List Nat) (l1 l2 : Bool)
    (hprior : s.channel.all (fun ch => decide (ch.chunk_id < s.chunk_id)) = true) :
    (s.send_chunk d1 l1 false).1
      = Except.error (Error.Stream "Failed to send chunk: channel closed")
    ∧ (s.send_chunk d1 l1 false).2.chunk_id = s.chunk_id + 1
    ∧ ((s.send_chunk d1 l1 false).2.send_chunk d2 l2 true).1 = Except.ok ()
    ∧ ((s.send_chunk d1 l1 false).2.send_chunk d2 l2 true).2.channel
      = s.channel
        ++ [{ stream_id := s.stream_id, chunk_id := s.chunk_id + 1, data := d2, is_last := l2 }]
    ∧ ((s.send_chunk d1 l1 false).2.send_chunk d2 l2 true).2.channel.all
        (fun ch => decide (ch.chunk_id ≠ s.chunk_id)) = true := by
  refine ⟨rfl, rfl, rfl, rfl, ?_⟩
  show (s.channel ++ [{ stream_id := s.stream_id, chunk_id := s.chunk_id + 1, data := d2, is_last := l2 : StreamChunk }]).all
      (fun ch => decide (ch.chunk_id ≠ s.chunk_id)) = true
  simp only [List.all_eq_true, decide_eq_true_eq] at hprior
  rw [List.all_append]
  simp only [Bool.and_eq_true, List.all_eq_true, List.mem_singleton, List.mem_append,
    decide_eq_true_eq]
  refine ⟨fun ch hch => Nat.ne_of_lt (hprior ch hch), fun ch hch => ?_⟩
  subst hch
  show s.chunk_id + 1 ≠ s.chunk_id
  omega

/-- Witness for C10 at a fresh sender: the prior-ids hypothesis holds
trivially on the empty channel, and the failed first chunk produces the
`Stream` error. -/
theorem claim_C10_chunk_id_gap_witness :
    (StreamSender.new "sid").channel.all
      (fun ch => decide (ch.chunk_id < (StreamSender.new "sid").chunk_id)) = true
    ∧ ((StreamSender.new "sid").send_chunk [1] false false).1
      = Except.error (Error.Stream "Failed to send chunk: channel closed") :=
  ⟨rfl, (claim_C10_chunk_id_gap (StreamSender.new "sid") [1] [2] false true rfl).1⟩

/-!
## Rate limiter
Embeds `src/rig-core/src/connection/rate_limit.rs`.  The
`HashMap<String, Vec<Instant>>` behind the `RwLock` is embedded
extensionally as a function `String → List Nat` whose default value is the
empty history (`entry(..).or_insert_with(Vec::new)`).  `Instant::now()` is
the `now` argument; `now.duration_since(time)` is saturating subtraction,
matching `Nat` subtraction.
-/

structure RateLimitConfig where
  max_requests : Nat
  window_size : Nat
deriving DecidableEq, Repr

/-- `RateLimitConfig::default()`: 100 requests per 60 time units. -/
def RateLimitConfig.default : RateLimitConfig :=
  { max_requests := 100, window_size := 60 }

/-- Point update of the extensional request map. -/
def rlUpdate (requests : String → List Nat) (key : String) (value : List Nat) :
    String → List Nat :=
  fun k => if k = key then value else requests k

/-- The fresh map of `RateLimiter::new`. -/
def emptyBuckets : String → List Nat := fun _ => []

/-- `check_request`: prune entries at least `window_size` old, fail with
`RateLimit` when at least `max_requests` remain (the pruned history is
written back in place), otherwise append `now` and succeed. -/
def RateLimiter.check_request (cfg : RateLimitConfig) (requests : String → List Nat)
    (client_id : String) (now : Nat) : Except Error Unit × (String → List Nat) :=
  let history := (requests client_id).filter (fun time => decide (now - time < cfg.window_size))
  if cfg.max_requests ≤ history.length then
    (Except.error (Error.RateLimit
        ("Rate limit exceeded for client " ++ client_id ++ ". Maximum "
          ++ toString cfg.max_requests ++ " requests per " ++ toString cfg.window_size)),
     rlUpdate requests client_id history)
  else
    (Except.ok (), rlUpdate requests client_id (history ++ [now]))

/-- The sub-list of calls of a call trace that `check_request` admits,
threading the request map through the trace. -/
def admittedCalls (cfg : RateLimitConfig) :
    (String → List Nat) → List (String × Nat) → List (String × Nat)
  | _, [] => []
  | st, (c, t) :: rest =>
    let r := RateLimiter.check_request cfg st c t
    (match r.1 with
     | .ok _ => [(c, t)]
     | .error _ => []) ++ admittedCalls cfg r.2 rest

/-- Number of history entries at or after the window start `a`. -/
def countGE (a : Nat) (l : List Nat) : Nat :=
  (l.filter (fun s => decide (a ≤ s))).length

/-- A call of client `c` whose time lies in the half-open window
`[a, a + w)`. -/
def inWindow (c : String) (a w : Nat) (p : String × Nat) : Bool :=
  decide (p.1 = c) && decide (a ≤ p.2) && decide (p.2 < a + w)

/-!
### Rate limiter lemmas
-/

/-- Admitted calls are calls of the trace. -/
theorem mem_admittedCalls {cfg : RateLimitConfig} :
    ∀ {tr : List (String × Nat)} {st : String → List Nat} {p : String × Nat},
      p ∈ admittedCalls cfg st tr → p ∈ tr := by
  intro tr
  induction tr with
  | nil => intro st p h; simp [admittedCalls] at h
  | cons hd rest ih =>
    intro st p h
    obtain ⟨c, t⟩ := hd
    simp only [admittedCalls, List.mem_append] at h
    rcases h with h | h
    · rcases hr : (RateLimiter.check_request cfg st c t).1 with e | u <;> rw [hr] at h
      · simp at h
      · simp at h
        simp [h]
    · exact List.mem_cons_of_mem _ (ih h)

/-- A check for a different client leaves a client's bucket unchanged. -/
theorem check_request_frame {cfg : RateLimitConfig} {st : String → List Nat}
    {c c' : String} {t : Nat} (h : c' ≠ c) :
    (RateLimiter.check_request cfg st c' t).2 c = st c := by
  by_cases hx : cfg.max_requests
      ≤ ((st c').filter (fun time => decide (t - time < cfg.window_size))).length
  · simp [RateLimiter.check_request, hx, rlUpdate, Ne.symm h]
  · simp [RateLimiter.check_request, hx, rlUpdate, Ne.symm h]

/-- Reading back the bucket just written. -/
theorem rlUpdate_same (st : String → List Nat) (k : String) (v : List Nat) :
    rlUpdate st k v k = v := by
  simp [rlUpdate]

/-- Pruning by a call inside the window never removes an entry at or after
the window start: such an entry is less than `window_size` old. -/
theorem countGE_filter_of_lt {a w t : Nat} (hw : 0 < w) (ht : t < a + w)
    (l : List Nat) :
    countGE a (l.filter (fun s => decide (t - s < w))) = countGE a l := by
  unfold countGE
  rw [List.filter_comm]
  congr 1
  apply List.filter_eq_self.mpr
  intro x hx
  simp only [List.mem_filter, decide_eq_true_eq] at hx
  have : a ≤ x := hx.2
  simp only [decide_eq_true_eq]
  omega

/-- Appending the admitted time stamp to the bucket. -/
theorem countGE_append (a t : Nat) (l : List Nat) :
    countGE a (l ++ [t]) = countGE a l + (if a ≤ t then 1 else 0) := by
  unfold countGE
  rw [List.filter_append, List.length_append]
  by_cases h : a ≤ t <;> simp [h]

/-- Bucket entries at or after the window start never exceed the whole
bucket. -/
theorem countGE_le_length (a : Nat) (l : List Nat) : countGE a l ≤ l.length :=
  List.length_filter_le _ _

/-- Once the trace has moved past the window, no further admitted call is
counted. -/
theorem admitted_out_of_window {cfg : RateLimitConfig} {c : String} {a w : Nat}
    {tr : List (String × Nat)} (hall : ∀ p ∈ tr, a + w ≤ p.2)
    (st : String → List Nat) :
    (admittedCalls cfg st tr).filter (inWindow c a w) = [] := by
  apply List.filter_eq_nil_iff.mpr
  intro p hp
  have := hall p (mem_admittedCalls hp)
  simp only [inWindow, Bool.and_eq_true, decide_eq_true_eq, not_and]
  intro _ _
  omega

/-- Window-bound invariant: starting from any request map, the number of
admitted calls of client `c` inside the window `[a, a + w)` is at most the
configured maximum minus the entries already in `c`'s bucket at or after
`a`. -/
theorem admitted_window_bound (cfg : RateLimitConfig) (c : String) (a : Nat)
    (hw : 0 < cfg.window_size) :
    ∀ (tr : List (String × Nat)) (st : String → List Nat),
      tr.Pairwise (fun p q => p.2 ≤ q.2) →
      ((admittedCalls cfg st tr).filter (inWindow c a cfg.window_size)).length
        ≤ cfg.max_requests - countGE a (st c) := by
  intro tr
  induction tr with
  | nil => intro st _; simp [admittedCalls]
  | cons hd rest ih =>
    intro st hpair
    obtain ⟨c', t⟩ := hd
    rw [List.pairwise_cons] at hpair
    obtain ⟨hhd, hrest⟩ := hpair
    by_cases hc : c' = c
    · subst hc
      by_cases hin : t < a + cfg.window_size
      · -- the head call is inside or before the window
        have hkeep :
            countGE a ((st c').filter (fun time => decide (t - time < cfg.window_size)))
              = countGE a (st c') :=
          countGE_filter_of_lt hw hin (st c')
        unfold admittedCalls RateLimiter.check_request
        by_cases hfail :
            cfg.max_requests
              ≤ ((st c').filter (fun time => decide (t - time < cfg.window_size))).length
        · -- rejected: the head is not admitted, the bucket is the pruned history
          simp only [hfail, if_pos, List.nil_append]
          have := ih (rlUpdate st c'
              ((st c').filter (fun time => decide (t - time < cfg.window_size)))) hrest
          simpa [rlUpdate, hkeep] using this
        · -- admitted: the head may be counted, the bucket gains `t`
          simp only [hfail, if_neg, not_false_iff]
          have hnext := ih (rlUpdate st c'
              ((st c').filter (fun time => decide (t - time < cfg.window_size)) ++ [t]))
              hrest
          rw [List.filter_append, List.length_append]
          have hbucket :
              countGE a ((st c').filter
                  (fun time => decide (t - time < cfg.window_size)) ++ [t])
                = countGE a (st c') + (if a ≤ t then 1 else 0) := by
            rw [countGE_append, hkeep]
          rw [rlUpdate_same] at hnext
          rw [hbucket] at hnext
          by_cases hat : a ≤ t
          · -- head call counted in the window
            have hcount : cfg.max_requests >
                ((st c').filter (fun time => decide (t - time < cfg.window_size))).length := by
              omega
            have hcg : countGE a (st c') + 1 ≤ cfg.max_requests := by
              have := countGE_le_length a
                ((st c').filter (fun time => decide (t - time < cfg.window_size)))
              rw [hkeep] at this
              omega
            have hhead : (List.filter (inWindow c' a cfg.window_size) [(c', t)]).length = 1 := by
              simp [inWindow, hat, hin]
            rw [hhead]
            simp only [if_pos hat] at hnext
            omega
          · -- head call earlier than the window start: not counted
            have hhead : (List.filter (inWindow c' a cfg.window_size) [(c', t)]).length = 0 := by
              simp [inWindow, hat]
            rw [hhead]
            simp only [if_neg hat] at hnext
            omega
      · -- the head call is past the window: nothing later can be counted
        have hall : ∀ p ∈ rest, a + cfg.window_size ≤ p.2 := by
          intro p hp
          have := hhd p hp
          omega
        unfold admittedCalls
        rw [List.filter_append, List.length_append,
          admitted_out_of_window hall]
        have hhead :
            (List.filter (inWindow c' a cfg.window_size)
              (match (RateLimiter.check_request cfg st c' t).1 with
                | .ok _ => [(c', t)]
                | .error _ => [])).length = 0 := by
          rcases hr : (RateLimiter.check_request cfg st c' t).1 with e | u
          · simp
          · simp [inWindow, hin]
        simp only [hhead, List.length_nil]
        omega
    · -- a call of a different client: the bucket of `c` is untouched
      unfold admittedCalls
      rw [List.filter_append, List.length_append]
      have hhead :
          (List.filter (inWindow c a cfg.window_size)
            (match (RateLimiter.check_request cfg st c' t).1 with
              | .ok _ => [(c', t)]
              | .error _ => [])).length = 0 := by
        rcases hr : (RateLimiter.check_request cfg st c' t).1 with e | u
        · simp
        · simp [inWindow, hc]
      have := ih (RateLimiter.check_request cfg st c' t).2 hrest
      rw [check_request_frame hc] at this
      omega

/-- C3: for any configuration `(N, W)`, any client, and any trace of
`check_request` calls at nondecreasing times starting from the fresh map,
at most `N` admitted calls of that client lie within any half-open time
interval of length `W`; and a call fails with a `RateLimit` error exactly
when, after pruning the entries at least `W` old, the client's bucket
already holds `N` or more admission time stamps. -/
theorem claim_C3_rate_limiter (cfg : RateLimitConfig) (c : String) (a : Nat)
    (tr : List (String × Nat)) (hmono : tr.Pairwise (fun p q => p.2 ≤ q.2)) :
    ((admittedCalls cfg emptyBuckets tr).filter (inWindow c a cfg.window_size)).length
      ≤ cfg.max_requests
    ∧ ∀ (st : String → List Nat) (cid : String) (t : Nat),
        (∃ msg, (RateLimiter.check_request cfg st cid t).1 = Except.error (Error.RateLimit msg))
          ↔ cfg.max_requests
              ≤ ((st cid).filter (fun time => decide (t - time < cfg.window_size))).length := by
  constructor
  · rcases Nat.eq_zero_or_pos cfg.window_size with hw | hw
    · have : (admittedCalls cfg emptyBuckets tr).filter (inWindow c a cfg.window_size) = [] := by
        apply List.filter_eq_nil_iff.mpr
        intro p _
        simp only [inWindow, Bool.and_eq_true, decide_eq_true_eq, not_and]
        intro _ _
        omega
      simp [this]
    · have := admitted_window_bound cfg c a hw tr emptyBuckets hmono
      simpa [emptyBuckets, countGE] using this
  · intro st cid t
    unfold RateLimiter.check_request
    constructor
    · rintro ⟨msg, hmsg⟩
      by_contra hlt
      rw [if_neg hlt] at hmsg
      simp at hmsg
    · intro hge
      rw [if_pos hge]
      exact ⟨_, rfl⟩

/-- Witness for C3: three calls of one client at times 0, 1, 2 under the
configuration `N = 2`, `W = 5` — the monotonicity hypothesis holds and at
most two of them are admitted inside the window `[0, 5)`. -/
theorem claim_C3_rate_limiter_witness :
    List.Pairwise (fun p q => p.2 ≤ q.2) [("c", 0), ("c", 1), ("c", 2)]
    ∧ ((admittedCalls ⟨2, 5⟩ emptyBuckets [("c", 0), ("c", 1), ("c", 2)]).filter
        (inWindow "c" 0 5)).length ≤ 2 :=
  ⟨by decide, (claim_C3_rate_limiter ⟨2, 5⟩ "c" 0 [("c", 0), ("c", 1), ("c", 2)] (by decide)).1⟩

/-!
## Protocol types and serialization
Embeds `src/rig-core/src/protocol/types.rs` and the derived `serde_json`
encoding of `Message`.  JSON documents are embedded as an abstract syntax
tree: numbers are integers (`u16`/`u64` envelope fields; floating point
content is out of scope), objects are association lists (the reference
`serde_json::Map` is order-insensitive content-wise).  A `serde`-derived
struct serializes as an object listing the fields in declaration order; a
unit enum variant serializes as its name string, except where a
`serde(rename)` attribute applies; an `Option` field serializes as `null`
for `None` and deserializes from a missing field or `null` to `None`.
-/

inductive Json where
  | null
  | bool (b : Bool)
  | num (n : Int)
  | str (s : String)
  | arr (items : List Json)
  | obj (fields : List (String × Json))

structure ProtocolVersion where
  major : Nat
  minor : Nat
  patch : Nat
deriving DecidableEq, Repr

/-- `ProtocolVersion::CURRENT` = 0.1.0. -/
def ProtocolVersion.CURRENT : ProtocolVersion :=
  { major := 0, minor := 1, patch := 0 }

/-- `is_compatible`: the major versions must match and this minor version
must be at least the required one. -/
def ProtocolVersion.is_compatible (v other : ProtocolVersion) : Bool :=
  decide (v.major = other.major) && decide (other.minor ≤ v.minor)

inductive MessageType where
  | Request
  | Response
  | Error
  | Stream
  | Heartbeat
  | Discovery
  | Registration
  | VersionCheck
deriving DecidableEq, Repr

structure Message where
  id : String
  message_type : MessageType
  «from» : String
  «to» : String
  content : Json
  timestamp : Nat
  correlation_id : Option String
  metadata : Option (List (String × Json))
  protocol_version : ProtocolVersion

/-- Wire form of a `MessageType` value: `serde` uses the variant name,
except `VersionCheck`, renamed to `version_check` by its
`serde(rename)` attribute. -/
def serializeMessageType : MessageType → Json
  | .Request => .str "Request"
  | .Response => .str "Response"
  | .Error => .str "Error"
  | .Stream => .str "Stream"
  | .Heartbeat => .str "Heartbeat"
  | .Discovery => .str "Discovery"
  | .Registration => .str "Registration"
  | .VersionCheck => .str "version_check"

def deserializeMessageType : Json → Option MessageType
  | .str "Request" => some .Request
  | .str "Response" => some .Response
  | .str "Error" => some .Error
  | .str "Stream" => some .Stream
  | .str "Heartbeat" => some .Heartbeat
  | .str "Discovery" => some .Discovery
  | .str "Registration" => some .Registration
  | .str "version_check" => some .VersionCheck
  | _ => none

def serializeVersion (v : ProtocolVersion) : Json :=
  .obj [("major", .num v.major), ("minor", .num v.minor), ("patch", .num v.patch)]

def serializeOptStr : Option String → Json
  | none => .null
  | some s => .str s

def serializeMetadata : Option (List (String × Json)) → Json
  | none => .null
  | some m => .obj m

/-- The `serde_json` encoding of a `Message` envelope. -/
def serializeMessage (m : Message) : Json :=
  .obj
    [("id", .str m.id),
     ("message_type", serializeMessageType m.message_type),
     ("from", .str m.«from»),
     ("to", .str m.«to»),
     ("content", m.content),
     ("timestamp", .num m.timestamp),
     ("correlation_id", serializeOptStr m.correlation_id),
     ("metadata", serializeMetadata m.metadata),
     ("protocol_version", serializeVersion m.protocol_version)]

/-- First binding of a key in a JSON object. -/
def lookupField : List (String × Json) → String → Option Json
  | [], _ => none
  | (k, v) :: rest, key => if k = key then some v else lookupField rest key

def asStr : Json → Option String
  | .str s => some s
  | _ => none

/-- An unsigned integer field: nonnegative JSON numbers only. -/
def asUInt : Json → Option Nat
  | .num (Int.ofNat n) => some n
  | _ => none

/-- An `Option<String>` field: missing or `null` is `None`. -/
def asOptStrField : Option Json → Option (Option String)
  | none => some none
  | some .null => some none
  | some (.str s) => some (some s)
  | some _ => none

/-- An `Option<Map<String, Value>>` field: missing or `null` is `None`. -/
def asOptMapField : Option Json → Option (Option (List (String × Json)))
  | none => some none
  | some .null => some none
  | some (.obj fields) => some (some fields)
  | some _ => none

def deserializeVersion : Json → Option ProtocolVersion
  | .obj fields => do
    let vmajor ← lookupField fields "major" >>= asUInt
    let vminor ← lookupField fields "minor" >>= asUInt
    let vpatch ← lookupField fields "patch" >>= asUInt
    some { major := vmajor, minor := vminor, patch := vpatch }
  | _ => none

/-- The `serde_json` decoding of a `Message` envelope. -/
def deserializeMessage : Json → Option Message
  | .obj fields => do
    let id ← lookupField fields "id" >>= asStr
    let mt ← lookupField fields "message_type" >>= deserializeMessageType
    let sender ← lookupField fields "from" >>= asStr
    let recipient ← lookupField fields "to" >>= asStr
    let content ← lookupField fields "content"
    let ts ← lookupField fields "timestamp" >>= asUInt
    let corr ← asOptStrField (lookupField fields "correlation_id")
    let meta ← asOptMapField (lookupField fields "metadata")
    let ver ← lookupField fields "protocol_version" >>= deserializeVersion
    some
      { id := id, message_type := mt, «from» := sender, «to» := recipient,
        content := content, timestamp := ts, correlation_id := corr,
        metadata := meta, protocol_version := ver }
  | _ => none

/-!
## Theorems: serialization claims
-/

/-- C4: deserializing the serialization of any message yields a message
equal to it in every envelope field (kind, sender, recipient, content,
timestamp, optional correlation id and metadata, protocol version). -/
theorem claim_C4_roundtrip (m : Message) :
    deserializeMessage (serializeMessage m) = some m := by
  obtain ⟨id, mt, sender, recipient, content, ts, corr, meta, ver⟩ := m
  obtain ⟨vmajor, vminor, vpatch⟩ := ver
  cases mt <;> cases corr <;> cases meta <;> rfl

/-- Wire name of each message kind per the amended claim: the variant name
verbatim (capitalized, e.g. `Request`, `Heartbeat`), except `VersionCheck`
which appears as `version_check`.  Modelled from the amended claim's
wording, to be compared against `serializeMessageType` from the source. -/
def wireName : MessageType → String
  | .Request => "Request"
  | .Response => "Response"
  | .Error => "Error"
  | .Stream => "Stream"
  | .Heartbeat => "Heartbeat"
  | .Discovery => "Discovery"
  | .Registration => "Registration"
  | .VersionCheck => "version_check"

/-- C5 (amended): the serialized `message_type` field is the variant name
verbatim — capitalized, not lowercased — except `VersionCheck`, which
serializes as `version_check`. -/
theorem claim_C5_wire_names (mt : MessageType) :
    serializeMessageType mt = Json.str (wireName mt) := by
  cases mt <;> rfl

/-- C5 counterexample to the claim as stated: the `Request` kind does not
serialize as the lowercase variant name `request`; it serializes as
`Request`. -/
theorem claim_C5_counterexample :
    serializeMessageType MessageType.Request = Json.str "Request"
    ∧ ¬ serializeMessageType MessageType.Request = Json.str "request" := by
  refine ⟨rfl, fun h => ?_⟩
  injection h with h'
  exact absurd h' (by decide)

/-!
## Security manager
Embeds `src/rig-core/src/security/mod.rs`.  The AEAD primitive
(ChaCha20-Poly1305) is idealized: a ciphertext-with-tag is an opaque value
remembering the key bytes, the nonce, and the plaintext, and opening
succeeds exactly when the key bytes and nonce match.  Byte strings on the
security boundary are the `Bytes` type below, so a plaintext buffer and a
ciphertext buffer share one type, as `Vec<u8>` does in the source.

The source's `generate_key` builds every key from the constant byte string
`[0; 32]` — the `SystemRandom` it constructs is never used — so all
generated keys have identical key bytes.  The rotation task of
`start_key_rotation` is embedded as the `rotate_key` step applied once per
elapsed rotation interval: it moves the current key to `previous` and
installs a freshly generated current key.
-/

inductive Bytes where
  | raw (data : List Nat)
  | sealed (key : List Nat) (nonce : List Nat) (body : Bytes)
deriving DecidableEq, Repr

inductive AuthMethod where
  | Token (token : String)
  | PublicKey (bytes : List Nat)
  | Certificate (bytes : List Nat)
  | Custom (name : String)
deriving DecidableEq, Repr

structure TlsConfig where
  cert_path : String
  key_path : String
  ca_certs : Option (List String)
deriving DecidableEq, Repr

structure SecurityConfig where
  auth_method : AuthMethod
  encrypt_messages : Bool
  tls_config : Option TlsConfig
  key_rotation_interval : Nat
deriving DecidableEq, Repr

structure EncryptionKey where
  key : List Nat
  created_at : Nat
deriving DecidableEq, Repr

/-- `generate_key`: `aead::UnboundKey::new(&CHACHA20_POLY1305, &[0; 32])` —
the key bytes are the constant all-zero 32-byte string, independent of the
creation time. -/
def generate_key (now : Nat) : EncryptionKey :=
  { key := List.replicate 32 0, created_at := now }

structure SecurityManager where
  config : SecurityConfig
  current_key : EncryptionKey
  previous_key : Option EncryptionKey

/-- `SecurityManager::new`: a fresh current key, no previous key. -/
def SecurityManager.new (config : SecurityConfig) (now : Nat) : SecurityManager :=
  { config := config, current_key := generate_key now, previous_key := none }

/-- One tick of the key-rotation task: the current key moves to
`previous` (displacing whatever was there) and a freshly generated key
becomes current. -/
def SecurityManager.rotate_key (m : SecurityManager) (now : Nat) : SecurityManager :=
  { m with current_key := generate_key now, previous_key := some m.current_key }

/-- `authenticate`: token and public-key credentials must match the
configured contents exactly; certificate pairs succeed at this layer
(validation is delegated to TLS); every other pairing — a variant
mismatch, and also `Custom` against `Custom` — falls into the wildcard arm
and fails with a `Security` error. -/
def SecurityManager.authenticate (m : SecurityManager) (credentials : AuthMethod) :
    Except Error Unit :=
  match m.config.auth_method, credentials with
  | .Token valid, .Token provided =>
    if valid = provided then Except.ok ()
    else Except.error (Error.Security "Invalid token")
  | .PublicKey valid, .PublicKey provided =>
    if valid = provided then Except.ok ()
    else Except.error (Error.Security "Invalid public key")
  | .Certificate _, .Certificate _ => Except.ok ()
  | _, _ => Except.error (Error.Security "Unsupported authentication method")

/-- Idealized `open_in_place`: succeeds exactly on a sealed value produced
with the same key bytes and nonce, yielding the sealed body. -/
def open_aead (key nonce : List Nat) : Bytes → Option Bytes
  | .sealed k n body => if k = key ∧ n = nonce then some body else none
  | .raw _ => none

/-- `encrypt`: pass-through when message encryption is disabled; otherwise
seal with the current key under the caller-supplied nonce. -/
def SecurityManager.encrypt (m : SecurityManager) (data : Bytes) (nonce : List Nat) :
    Except Error Bytes :=
  if m.config.encrypt_messages = false then Except.ok data
  else Except.ok (.sealed m.current_key.key nonce data)

/-- `decrypt`: pass-through when message encryption is disabled; otherwise
try the current key, then the retained previous key if any, and fail with
a `Security` error when both reject. -/
def SecurityManager.decrypt (m : SecurityManager) (data : Bytes) (nonce : List Nat) :
    Except Error Bytes :=
  if m.config.encrypt_messages = false then Except.ok data
  else
    match open_aead m.current_key.key nonce data with
    | some body => Except.ok body
    | none =>
      match m.previous_key with
      | some prev =>
        match open_aead prev.key nonce data with
        | some body => Except.ok body
        | none => Except.error (Error.Security "Decryption failed")
      | none => Except.error (Error.Security "Decryption failed")

/-!
## Theorems: security claims
-/

/-- Rotation never changes the configuration. -/
theorem rotate_key_config (ts : List Nat) :
    ∀ m : SecurityManager, (ts.foldl SecurityManager.rotate_key m).config = m.config := by
  induction ts with
  | nil => intro m; rfl
  | cons t rest ih => intro m; exact ih (m.rotate_key t)

/-- Every rotation leaves the all-zero current key bytes in place. -/
theorem rotate_key_current (ts : List Nat) :
    ∀ m : SecurityManager, m.current_key.key = List.replicate 32 0 →
      (ts.foldl SecurityManager.rotate_key m).current_key.key = List.replicate 32 0 := by
  induction ts with
  | nil => intro m h; exact h
  | cons t rest ih =>
    intro m _
    exact ih (m.rotate_key t) rfl

/-- C1 fails on the code: with encryption enabled, a ciphertext sealed at
creation time decrypts successfully after any number of key rotations —
in particular after two or more, where the claim requires a `Security`
failure.  The root cause is that `generate_key` derives every key from the
hardcoded `[0; 32]` byte string (its `SystemRandom` is unused), so the
"fresh" key installed by each rotation has the same key bytes and the old
ciphertext still authenticates against it. -/
theorem claim_C1_rotation_never_expires (interval t0 : Nat) (p : Bytes)
    (nonce : List Nat) (ts : List Nat) :
    ((SecurityManager.new
        { auth_method := .Token "token", encrypt_messages := true,
          tls_config := none, key_rotation_interval := interval } t0).encrypt p nonce
      = Except.ok (Bytes.sealed (List.replicate 32 0) nonce p))
    ∧ ((ts.foldl SecurityManager.rotate_key
          (SecurityManager.new
            { auth_method := .Token "token", encrypt_messages := true,
              tls_config := none, key_rotation_interval := interval } t0)).decrypt
        (Bytes.sealed (List.replicate 32 0) nonce p) nonce
      = Except.ok p)
    ∧ (∀ t t' : Nat, (generate_key t).key = (generate_key t').key) := by
  refine ⟨rfl, ?_, fun t t' => rfl⟩
  have hcur := rotate_key_current ts
    (SecurityManager.new
      { auth_method := .Token "token", encrypt_messages := true,
        tls_config := none, key_rotation_interval := interval } t0) rfl
  unfold SecurityManager.decrypt
  rw [if_neg (by rw [rotate_key_config]; simp [SecurityManager.new])]
  rw [hcur]
  simp [open_aead]

/-- C7 (amended): `authenticate` succeeds exactly when the credential
variant matches the configured variant and, for tokens and public keys,
the contents are equal; certificate pairs always succeed at this layer;
`Custom` credentials do not delegate anywhere — like any variant mismatch
they fail with a `Security` error. -/
theorem claim_C7_authenticate_characterization (m : SecurityManager) (cred : AuthMethod) :
    m.authenticate cred = Except.ok ()
      ↔ ((∃ s, m.config.auth_method = AuthMethod.Token s ∧ cred = AuthMethod.Token s)
         ∨ (∃ b, m.config.auth_method = AuthMethod.PublicKey b ∧ cred = AuthMethod.PublicKey b)
         ∨ (∃ b1 b2, m.config.auth_method = AuthMethod.Certificate b1
              ∧ cred = AuthMethod.Certificate b2)) := by
  obtain ⟨cfg, cur, prev⟩ := m
  obtain ⟨auth, enc, tls, rot⟩ := cfg
  cases auth <;> cases cred <;>
    simp [SecurityManager.authenticate] <;>
    constructor <;> intro h <;> exact h.symm

/-- C7 counterexample to the claim as stated: `Custom` credentials against
a `Custom`-configured method do not delegate to the caller — they fail
with a `Security` error through the wildcard arm. -/
theorem claim_C7_counterexample :
    (SecurityManager.new
      { auth_method := .Custom "scheme", encrypt_messages := false,
        tls_config := none, key_rotation_interval := 1 } 0).authenticate
        (AuthMethod.Custom "scheme")
      = Except.error (Error.Security "Unsupported authentication method") :=
  rfl

/-- C8: with `encrypt_messages = false`, both `encrypt` and `decrypt`
return the input bytes unchanged and never fail, for every input and every
nonce — the pass-through makes decrypt-after-encrypt the identity and
checks no authentication tag. -/
theorem claim_C8_plaintext_passthrough (m : SecurityManager) (data : Bytes)
    (nonce : List Nat) (h : m.config.encrypt_messages = false) :
    m.encrypt data nonce = Except.ok data ∧ m.decrypt data nonce = Except.ok data := by
  constructor
  · unfold SecurityManager.encrypt
    rw [if_pos h]
  · unfold SecurityManager.decrypt
    rw [if_pos h]

/-- Witness for C8 at a concrete manager with encryption disabled. -/
theorem claim_C8_plaintext_passthrough_witness :
    (SecurityManager.new
        { auth_method := .Token "t", encrypt_messages := false,
          tls_config := none, key_rotation_interval := 1 } 0).encrypt
        (Bytes.raw [1, 2, 3]) [0]
      = Except.ok (Bytes.raw [1, 2, 3])
    ∧ (SecurityManager.new
        { auth_method := .Token "t", encrypt_messages := false,
          tls_config := none, key_rotation_interval := 1 } 0).decrypt
        (Bytes.raw [1, 2, 3]) [0]
      = Except.ok (Bytes.raw [1, 2, 3]) :=
  claim_C8_plaintext_passthrough _ _ _ rfl

/-!
## Connection
Embeds `Connection` of `src/rig-core/src/connection/mod.rs` together with
the metrics of `src/rig-core/src/connection/metrics.rs`.  The outbound
mpsc channel is embedded as the list of frames successfully enqueued plus
a flag saying whether the receiving end (the writer task) has dropped —
`tx.send` fails exactly in that case.  A frame is the serialized message
(`WsMessage::Text` of `serde_json::to_string`), embedded as the JSON
value.  `Instant::now()` at entry of `send` and the encode-to-enqueue
elapsed time are the `now` and `elapsed` arguments; `record_latency`
stores the given sample (the source keeps the last sample, not a mean).
-/

structure ConnectionMetrics where
  messages_sent : Nat
  messages_received : Nat
  errors : Nat
  last_active : Nat
  latency : Nat
deriving DecidableEq, Repr

def ConnectionMetrics.new (now : Nat) : ConnectionMetrics :=
  { messages_sent := 0, messages_received := 0, errors := 0, last_active := now, latency := 0 }

/-- `record_sent`: bump the sent counter and touch `last_active`. -/
def ConnectionMetrics.record_sent (m : ConnectionMetrics) (now : Nat) : ConnectionMetrics :=
  { m with messages_sent := m.messages_sent + 1, last_active := now }

/-- `record_latency`: overwrite the latency sample. -/
def ConnectionMetrics.record_latency (m : ConnectionMetrics) (duration : Nat) :
    ConnectionMetrics :=
  { m with latency := duration }

inductive ConnectionStatus where
  | Connected
  | Disconnected
  | Reconnecting (attempts : Nat)
  | Failed
deriving DecidableEq, Repr

structure ConnectionConfig where
  max_reconnects : Nat
  reconnect_delay : Nat
  buffer_size : Nat
  rate_limit : Option RateLimitConfig
deriving DecidableEq, Repr

structure Connection where
  id : String
  last_heartbeat : Nat
  outbound : List Json
  peer_dropped : Bool
  status : ConnectionStatus
  config : ConnectionConfig
  metrics : ConnectionMetrics
  circuit_breaker : CircuitBreaker

/-- `Connection::new`: connected, fresh metrics, breaker that opens after
3 failures. -/
def Connection.new (id : String) (config : ConnectionConfig) (now : Nat) : Connection :=
  { id := id, last_heartbeat := now, outbound := [], peer_dropped := false,
    status := .Connected, config := config, metrics := ConnectionMetrics.new now,
    circuit_breaker := CircuitBreaker.new 3 }

/-- `send`: refuse with a `Connection` error while the breaker blocks
requests; otherwise serialize the message and enqueue the frame — on
enqueue failure (the channel's receiving end dropped) record a breaker
failure and fail with a `Connection` error, on success record a breaker
success, count the message as sent and store the elapsed latency
sample. -/
def Connection.send (c : Connection) (message : Message) (now elapsed : Nat) :
    Except Error Unit × Connection :=
  if c.circuit_breaker.allow_request = false then
    (Except.error (Error.Connection "Circuit breaker is open"), c)
  else
    let text := serializeMessage message
    if c.peer_dropped then
      (Except.error (Error.Connection "Failed to send message: channel closed"),
       { c with circuit_breaker := c.circuit_breaker.record_failure now })
    else
      (Except.ok (),
       { c with outbound := c.outbound ++ [text],
                circuit_breaker := c.circuit_breaker.record_success,
                metrics := (c.metrics.record_sent now).record_latency elapsed })

/-!
## Theorems: connection send claim
-/

/-- C6 (amended): against a breaker that blocks requests, `send` fails
with a `Connection` error — not a `Send` error — leaving the connection
untouched; with the breaker admitting and the outbound queue's peer
dropped it fails with a `Connection` error and records a breaker failure
without enqueueing; otherwise it enqueues exactly one encoded frame,
counts the message as sent, stores the elapsed latency sample, and records
a breaker success. -/
theorem claim_C6_send_characterization (c : Connection) (message : Message)
    (now elapsed : Nat) :
    (c.circuit_breaker.allow_request = false →
      c.send message now elapsed = (Except.error (Error.Connection "Circuit breaker is open"), c))
    ∧ (c.circuit_breaker.allow_request = true → c.peer_dropped = true →
      (c.send message now elapsed).1
        = Except.error (Error.Connection "Failed to send message: channel closed")
      ∧ (c.send message now elapsed).2.circuit_breaker = c.circuit_breaker.record_failure now
      ∧ (c.send message now elapsed).2.outbound = c.outbound)
    ∧ (c.circuit_breaker.allow_request = true → c.peer_dropped = false →
      (c.send message now elapsed).1 = Except.ok ()
      ∧ (c.send message now elapsed).2.outbound = c.outbound ++ [serializeMessage message]
      ∧ (c.send message now elapsed).2.metrics.messages_sent = c.metrics.messages_sent + 1
      ∧ (c.send message now elapsed).2.metrics.latency = elapsed
      ∧ (c.send message now elapsed).2.circuit_breaker = c.circuit_breaker.record_success) := by
  refine ⟨fun hblock => ?_, fun hopen hdrop => ?_, fun hopen hdrop => ?_⟩
  · simp [Connection.send, hblock]
  · simp [Connection.send, hopen, hdrop, ConnectionMetrics.record_sent,
      ConnectionMetrics.record_latency]
  · simp [Connection.send, hopen, hdrop, ConnectionMetrics.record_sent,
      ConnectionMetrics.record_latency]

/-- A message value for concrete send scenarios. -/
def msgPing : Message :=
  { id := "m-1", message_type := .Request, «from» := "a1", «to» := "a2",
    content := .null, timestamp := 0, correlation_id := none, metadata := none,
    protocol_version := ProtocolVersion.CURRENT }

/-- A connection whose breaker has opened after three failures. -/
def connOpenBreaker : Connection :=
  { Connection.new "peer"
      { max_reconnects := 3, reconnect_delay := 1, buffer_size := 32, rate_limit := none } 0
    with circuit_breaker :=
      (((CircuitBreaker.new 3).record_failure 0).record_failure 0).record_failure 0 }

/-- C6 counterexample to the claim as stated: with the breaker open,
`send` fails with an error of the `Connection` kind, not the `Send` kind
the claim names. -/
theorem claim_C6_counterexample :
    (connOpenBreaker.send msgPing 0 0).1
      = Except.error (Error.Connection "Circuit breaker is open")
    ∧ (Error.Connection "Circuit breaker is open").kind = ErrKind.Connection
    ∧ ¬ (Error.Connection "Circuit breaker is open").kind = ErrKind.Send := by
  refine ⟨rfl, rfl, by decide⟩

/-- A freshly created connection (breaker closed, peer alive). -/
def connFresh : Connection :=
  Connection.new "peer"
    { max_reconnects := 3, reconnect_delay := 1, buffer_size := 32, rate_limit := none } 0

/-- Witness for C6 discharging each hypothesis at concrete connections:
the open-breaker branch on `connOpenBreaker`, and the dropped-peer and
success branches on fresh connections. -/
theorem claim_C6_send_characterization_witness :
    (connOpenBreaker.send msgPing 0 0
      = (Except.error (Error.Connection "Circuit breaker is open"), connOpenBreaker))
    ∧ (({ connFresh with peer_dropped := true }.send msgPing 4 1).1
        = Except.error (Error.Connection "Failed to send message: channel closed"))
    ∧ (connFresh.send msgPing 4 1).1 = Except.ok () := by
  refine ⟨(claim_C6_send_characterization connOpenBreaker msgPing 0 0).1 rfl,
    ((claim_C6_send_characterization { connFresh with peer_dropped := true } msgPing 4 1).2.1
      rfl rfl).1,
    ((claim_C6_send_characterization connFresh msgPing 4 1).2.2 rfl rfl).1⟩

end Meap
